import Mathlib

/-!
# Verification of the jishaku flag registry (`jishaku/flags.py`)

A shallow embedding of the flag-resolution core of the repository:
the `Flag` dataclass with its `resolve` method, the `FlagMeta`
metaclass (`__new__` building the flag map from class annotations,
`__getattr__` resolving flags on read, `__setattr__` validating and
storing overrides), and the concrete `Flags` schema declared in the
module.

Python values that can appear in this corner of the program are
booleans, strings, `None`, and the functions used as computed
defaults / handlers.  Exceptions are modelled with `Option`/`Except`.
Environment access (`os.getenv`) is modelled by passing the
environment explicitly as a function from variable names to optional
string values.
-/

namespace Jishaku

/-- The word sets recognised for boolean environment values
(`ENABLED_SYMBOLS` in the source). -/
def ENABLED_SYMBOLS : List String := ["true", "t", "yes", "y", "on", "1"]

/-- `DISABLED_SYMBOLS` in the source. -/
def DISABLED_SYMBOLS : List String := ["false", "f", "no", "n", "off", "0"]

/-- The functions that occur as flag defaults or handlers in the source.
`scopePrefixFn` is the lambda declared on the `SCOPE_PREFIX` flag:
`lambda flags: '' if flags.NO_UNDERSCORE else '_'`. -/
inductive PyFn
  | scopePrefixFn
  deriving DecidableEq, Repr

/-- The Python values relevant to the flag machinery: `None`, booleans,
strings and function objects. -/
inductive PyVal
  | none
  | pyBool (b : Bool)
  | pyStr (s : String)
  | pyFn (f : PyFn)
  deriving DecidableEq, Repr

/-- Python truthiness of a `PyVal` (used by the `SCOPE_PREFIX` lambda's
conditional expression). -/
def PyVal.truthy : PyVal → Bool
  | .none => false
  | .pyBool b => b
  | .pyStr s => s ≠ ""
  | .pyFn _ => true

/-- A flag's annotated type.  In the source these are the actual types
`bool` and `str`; `fstrAnnot s` represents a stringified (textual)
annotation, which is not an introspectable type. -/
inductive FType
  | fbool
  | fstr
  | fstrAnnot (s : String)
  deriving DecidableEq, Repr

/-- `type.__name__` for the types a flag can carry; calling `__name__`
of a string annotation is meaningless, modelled by the string itself. -/
def FType.typeName : FType → String
  | .fbool => "bool"
  | .fstr => "str"
  | .fstrAnnot s => s

/-- `type(value).__name__` of a runtime value. -/
def PyVal.typeName : PyVal → String
  | .none => "NoneType"
  | .pyBool _ => "bool"
  | .pyStr _ => "str"
  | .pyFn _ => "function"

/-- `isinstance(value, flag_type)` for the values and types in play.
The result is `none` when `isinstance` itself raises, which happens when
the second argument is a string (a stringified annotation) rather than a
type. -/
def isinst (v : PyVal) : FType → Option Bool
  | .fbool => some (match v with | .pyBool _ => true | _ => false)
  | .fstr => some (match v with | .pyStr _ => true | _ => false)
  | .fstrAnnot _ => Option.none

/-- `flag_type()` — the zero value of a declared type.  Calling a string
annotation raises, modelled as `none`. -/
def FType.zero : FType → Option PyVal
  | .fbool => some (PyVal.pyBool false)
  | .fstr => some (PyVal.pyStr "")
  | .fstrAnnot _ => Option.none

/-- The `Flag` dataclass: `name`, `flag_type`, `default` (a value or a
function, `None` when absent) and the `override` slot (`None` when
unset). -/
structure Flag where
  name : String
  flag_type : FType
  default : PyVal
  override : PyVal
  deriving DecidableEq, Repr

/-- The flag registry: the `flag_map` dict, as an ordered association
list of flags (Python dicts preserve insertion order). -/
abbrev Registry : Type := List Flag

/-- Dict lookup in `flag_map`. -/
def lookupFlag (reg : Registry) (name : String) : Option Flag :=
  List.find? (fun f => f.name = name) reg

/-- The process environment, as read by `os.getenv`: a map from
variable names to optional values. -/
def Env := String → Option String

/-- The environment variable consulted for a flag:
`f"JISHAKU_{self.name}"`. -/
def jkey (name : String) : String := "JISHAKU_" ++ name

/-- The set of characters Python's `str.strip()` removes (the Unicode
White_Space code points). -/
def pyIsSpace (c : Char) : Bool :=
  [9, 10, 11, 12, 13, 28, 29, 30, 31, 32, 0x85, 0xA0, 0x1680,
    0x2000, 0x2001, 0x2002, 0x2003, 0x2004, 0x2005, 0x2006, 0x2007,
    0x2008, 0x2009, 0x200A, 0x2028, 0x2029, 0x202F, 0x205F, 0x3000].contains
    c.toNat

/-- Python `str.strip()`: remove leading and trailing whitespace. -/
def pyStrip (s : String) : String :=
  String.mk (((s.data.dropWhile pyIsSpace).reverse.dropWhile pyIsSpace).reverse)

/-- ASCII case lowering of one character.  Python's `str.lower()` is the
full Unicode mapping; the only code point outside A–Z whose Python
lowercase is a pure-ASCII string is the Kelvin sign (→ `k`), and no word
in `ENABLED_SYMBOLS`/`DISABLED_SYMBOLS` contains `k`, so on the
membership tests below this ASCII mapping agrees with Python's on every
input. -/
def pyLowerChar (c : Char) : Char :=
  if 65 ≤ c.toNat ∧ c.toNat ≤ 90 then Char.ofNat (c.toNat + 32) else c

/-- Python `str.lower()` (see `pyLowerChar`). -/
def pyLower (s : String) : String :=
  String.mk (s.data.map pyLowerChar)

/-- `os.getenv(f"JISHAKU_{self.name}", "").strip()`. -/
def envValue (env : Env) (name : String) : String :=
  pyStrip ((env (jkey name)).getD "")

/-- The environment step of `Flag.resolve` (the `if env_value:` block):
`some v` when this source yields a value, `none` when resolution falls
through to the default step.  A non-boolean flag with a non-empty
environment value returns from this block unconditionally; converting
via a stringified annotation raises, modelled by the `Except`. -/
def envStep (env : Env) (f : Flag) : Except Unit (Option PyVal) :=
  let ev := envValue env f.name
  if ev ≠ "" then
    match f.flag_type with
    | .fbool =>
      if ENABLED_SYMBOLS.contains (pyLower ev) then .ok (some (PyVal.pyBool true))
      else if DISABLED_SYMBOLS.contains (pyLower ev) then .ok (some (PyVal.pyBool false))
      else .ok Option.none
    | .fstr => .ok (some (PyVal.pyStr ev))
    | .fstrAnnot _ => .error ()
  else .ok Option.none

/-- `Flag.resolve(self, flags)`, with the metaclass `__getattr__`
re-entry that the `SCOPE_PREFIX` computed default performs
(`flags.NO_UNDERSCORE` inside the lambda).  `fuel` bounds the re-entry
depth (the source has no cycle guard; running out of fuel models
non-termination / a recursion error, as does any raised exception, via
`none`). -/
def resolve : Nat → Env → Registry → Flag → Option PyVal
  | 0, _, _, _ => Option.none
  | fuel + 1, env, reg, f =>
    -- Manual override, ignore environment in this case
    if f.override ≠ PyVal.none then some f.override
    else
      match envStep env f with
      | .error _ => Option.none
      | .ok (some v) => some v
      | .ok Option.none =>
        -- Fallback if no resolvation from environment
        match f.default with
        | PyVal.none => f.flag_type.zero
        | PyVal.pyFn PyFn.scopePrefixFn =>
          -- default(flags): '' if flags.NO_UNDERSCORE else '_',
          -- the attribute read going through __getattr__
          match lookupFlag reg "NO_UNDERSCORE" with
          | some g =>
            match resolve fuel env reg g with
            | some v => some (if v.truthy then PyVal.pyStr "" else PyVal.pyStr "_")
            | Option.none => Option.none
          | Option.none => Option.none
        | d => some d

/-- `FlagMeta.__getattr__`: a name in `flag_map` resolves its flag; any
other name falls back to ordinary attribute lookup, which is outside
the flag machinery (modelled as `none`). -/
def getFlag (fuel : Nat) (env : Env) (reg : Registry) (name : String) :
    Option PyVal :=
  match lookupFlag reg name with
  | some f => resolve fuel env reg f
  | Option.none => Option.none

/-- Invocation of a computed default with the registry as argument. -/
def applyFn (fuel : Nat) (env : Env) (reg : Registry) : PyFn → Option PyVal
  | PyFn.scopePrefixFn =>
    match getFlag fuel env reg "NO_UNDERSCORE" with
    | some v => some (if v.truthy then PyVal.pyStr "" else PyVal.pyStr "_")
    | Option.none => Option.none

/-- The fallback of `Flag.resolve` once neither the override nor the
environment produced a value: the declared default (a plain value, or a
function invoked with the registry), else the type's zero value. -/
def defaultStep (fuel : Nat) (env : Env) (reg : Registry) (f : Flag) :
    Option PyVal :=
  match f.default with
  | PyVal.none => f.flag_type.zero
  | PyVal.pyFn fn => applyFn fuel env reg fn
  | d => some d

/-- The fallback inlined in `resolve` is exactly `defaultStep`: with no
override and no value from the environment, `resolve` computes the
default step. -/
theorem resolve_fallthrough (fuel : Nat) (env : Env) (reg : Registry) (f : Flag)
    (ho : f.override = PyVal.none) (he : envStep env f = .ok Option.none) :
    resolve (fuel + 1) env reg f = defaultStep fuel env reg f := by
  simp only [resolve, ho, he, ne_eq, not_true_eq_false, if_false]
  cases hd : f.default with
  | none => simp only [defaultStep, hd]
  | pyBool b => simp only [defaultStep, hd]
  | pyStr s => simp only [defaultStep, hd]
  | pyFn fn =>
    cases fn
    simp only [defaultStep, hd, applyFn, getFlag]
    cases lookupFlag reg "NO_UNDERSCORE" <;> rfl

/-- The observable state of the metaclass instance: the flag map plus
the ordinary class attribute dict that `super().__setattr__` writes. -/
structure ClassState where
  flag_map : Registry
  attrs : List (String × PyVal)
  deriving DecidableEq, Repr

/-- Dict assignment: overwrite in place when the key exists, append
otherwise (Python dict semantics). -/
def dictInsert (d : List (String × PyVal)) (k : String) (v : PyVal) :
    List (String × PyVal) :=
  if d.any (fun p => p.1 = k) then
    d.map (fun p => if p.1 = k then (k, v) else p)
  else d ++ [(k, v)]

/-- The error raised by `FlagMeta.__setattr__` on a type mismatch, plus
the `TypeError` that `isinstance` raises when the flag's "type" is a
stringified annotation. -/
inductive SetErr
  | valueError (msg : String)
  | typeError
  deriving DecidableEq, Repr

/-- Writes the override of flag `name` in the registry. -/
def setOverride (reg : Registry) (name : String) (v : PyVal) : Registry :=
  reg.map (fun f => if f.name = name then { f with override := v } else f)

/-- `FlagMeta.__setattr__`: a declared flag name validates the value
against the flag's type and stores it in the override slot; any other
name is stored as an ordinary class attribute with no validation.  An
error leaves the state unchanged (the exception propagates before any
assignment). -/
def setattr (st : ClassState) (name : String) (v : PyVal) :
    Except SetErr ClassState :=
  match lookupFlag st.flag_map name with
  | some flag =>
    match isinst v flag.flag_type with
    | some true =>
      .ok { st with flag_map := setOverride st.flag_map name v }
    | some false =>
      .error (SetErr.valueError
        ("Attempted to set flag " ++ name ++ " to type " ++ v.typeName ++
          " (should be " ++ flag.flag_type.typeName ++ ")"))
    | Option.none => .error SetErr.typeError
  | Option.none => .ok { st with attrs := dictInsert st.attrs name v }

/-- The value assigned to a flag name in the class body: nothing, a
single value (possibly a function), or a `(default, handler)` tuple
(`attrs.pop(flag_name, None)` and the tuple unpack in
`FlagMeta.__new__`). -/
inductive DefaultSpec
  | noSpec
  | value (v : PyVal)
  | pair (d : PyVal) (h : PyVal)
  deriving DecidableEq, Repr

/-- One line of a flag schema (class body): the annotated name, the
annotation (a real type or a stringified one) and the assigned
default spec, if any. -/
structure SchemaEntry where
  name : String
  annot : FType
  spec : DefaultSpec
  deriving DecidableEq, Repr

/-- Dict assignment for annotation dicts: last value wins, first
insertion position kept. -/
def dictInsertT (d : List (String × FType)) (k : String) (v : FType) :
    List (String × FType) :=
  if d.any (fun p => p.1 = k) then
    d.map (fun p => if p.1 = k then (k, v) else p)
  else d ++ [(k, v)]

/-- Dict assignment for default-spec dicts. -/
def dictInsertS (d : List (String × DefaultSpec)) (k : String) (v : DefaultSpec) :
    List (String × DefaultSpec) :=
  if d.any (fun p => p.1 = k) then
    d.map (fun p => if p.1 = k then (k, v) else p)
  else d ++ [(k, v)]

/-- The `__annotations__` dict the compiler builds from the class body:
each annotated line assigns into the dict, so a repeated name keeps one
entry with the last annotation. -/
def buildAnnotDict (schema : List SchemaEntry) : List (String × FType) :=
  schema.foldl (fun d e => dictInsertT d e.name e.annot) []

/-- The class namespace entries for flag names: each line with an
assigned value assigns into the dict; a line without one assigns
nothing. -/
def buildAttrsDict (schema : List SchemaEntry) : List (String × DefaultSpec) :=
  schema.foldl
    (fun d e =>
      match e.spec with
      | DefaultSpec.noSpec => d
      | s => dictInsertS d e.name s)
    []

/-- `attrs.pop(flag_name, None)` followed by the tuple unpack: yields
the `default` and `handler` passed to the `Flag` constructor. -/
def splitSpec : DefaultSpec → PyVal × PyVal
  | DefaultSpec.noSpec => (PyVal.none, PyVal.none)
  | DefaultSpec.value v => (v, PyVal.none)
  | DefaultSpec.pair d h => (d, h)

/-- The loop body of `FlagMeta.__new__`: for each annotation entry,
build `Flag(flag_name, flag_type, default, handler)`.  The `Flag`
dataclass's fields are `(name, flag_type, default, override)`, so the
fourth positional argument — the handler — lands in the `override`
field. -/
def buildFlagMap (annots : List (String × FType))
    (attrs : List (String × DefaultSpec)) : Registry :=
  annots.map (fun p =>
    let spec := ((attrs.find? (fun q => q.1 = p.1)).map Prod.snd).getD
      DefaultSpec.noSpec
    let dh := splitSpec spec
    { name := p.1, flag_type := p.2, default := dh.1, override := dh.2 })

/-- `FlagMeta.__new__` on a class body: builds the annotation and
namespace dicts, applies the stringified-annotation guard (which
inspects only the first annotation value), and builds the flag map.
The error carries the `RuntimeError` message. -/
def declare (clsName : String) (schema : List SchemaEntry) :
    Except String Registry :=
  let annots := buildAnnotDict schema
  match annots.head? with
  | some (_, FType.fstrAnnot _) =>
    .error (clsName ++ " has stringified annotations; does the module " ++
      "contain from __future__ import annotations?")
  | _ => .ok (buildFlagMap annots (buildAttrsDict schema))

/-- The `Flags` class body of the source module, line by line. -/
def jishakuSchema : List SchemaEntry :=
  [ ⟨"HIDE", FType.fbool, DefaultSpec.noSpec⟩,
    ⟨"RETAIN", FType.fbool, DefaultSpec.noSpec⟩,
    ⟨"NO_UNDERSCORE", FType.fbool, DefaultSpec.noSpec⟩,
    ⟨"SCOPE_PREFIX", FType.fstr,
      DefaultSpec.value (PyVal.pyFn PyFn.scopePrefixFn)⟩,
    ⟨"FORCE_PAGINATOR", FType.fbool, DefaultSpec.noSpec⟩,
    ⟨"NO_DM_TRACEBACK", FType.fbool, DefaultSpec.noSpec⟩,
    ⟨"USE_BRAILLE_J", FType.fbool, DefaultSpec.noSpec⟩ ]

/-- The registry `FlagMeta.__new__` builds for the `Flags` class. -/
def jishakuFlags : Registry :=
  [ ⟨"HIDE", FType.fbool, PyVal.none, PyVal.none⟩,
    ⟨"RETAIN", FType.fbool, PyVal.none, PyVal.none⟩,
    ⟨"NO_UNDERSCORE", FType.fbool, PyVal.none, PyVal.none⟩,
    ⟨"SCOPE_PREFIX", FType.fstr, PyVal.pyFn PyFn.scopePrefixFn, PyVal.none⟩,
    ⟨"FORCE_PAGINATOR", FType.fbool, PyVal.none, PyVal.none⟩,
    ⟨"NO_DM_TRACEBACK", FType.fbool, PyVal.none, PyVal.none⟩,
    ⟨"USE_BRAILLE_J", FType.fbool, PyVal.none, PyVal.none⟩ ]

/-- Sanity: declaring the source's `Flags` schema yields exactly
`jishakuFlags`. -/
theorem declare_jishaku : declare "Flags" jishakuSchema = Except.ok jishakuFlags := by
  rfl

/-- The class state right after the `Flags` class is created. -/
def jishakuInit : ClassState := ⟨jishakuFlags, []⟩

/-- The empty environment. -/
def emptyEnv : Env := fun _ => Option.none

/-- The read/write operations a client can perform on the class, and
the state transition each performs.  `resolve` (hence a flag read) is
translated from source code containing no assignment, so a read leaves
the state unchanged; a write goes through `setattr`, and a raised
error propagates before any assignment happens. -/
inductive Op
  | readFlag (name : String)
  | writeAttr (name : String) (v : PyVal)

/-- The state transition performed by one operation. -/
def step (st : ClassState) : Op → ClassState
  | Op.readFlag _ => st
  | Op.writeAttr n v =>
    match setattr st n v with
    | .ok st' => st'
    | .error _ => st

/-! ## Helper lemmas -/

theorem lookupFlag_name {reg : Registry} {name : String} {f : Flag}
    (h : lookupFlag reg name = some f) : f.name = name := by
  have := List.find?_some h
  simpa using this

theorem resolve_override (fuel : Nat) (env : Env) (reg : Registry) (f : Flag)
    (h : f.override ≠ PyVal.none) :
    resolve (fuel + 1) env reg f = some f.override := by
  simp [resolve, h]

theorem isinst_true_ne_none {v : PyVal} {t : FType}
    (h : isinst v t = some true) : v ≠ PyVal.none := by
  cases t <;> cases v <;> simp [isinst] at h ⊢

theorem lookupFlag_setOverride_self (reg : Registry) (name : String)
    (v : PyVal) (f : Flag) (h : lookupFlag reg name = some f) :
    lookupFlag (setOverride reg name v) name = some { f with override := v } := by
  induction reg with
  | nil => simp [lookupFlag] at h
  | cons g tl ih =>
    unfold lookupFlag at h ⊢
    simp only [setOverride, List.map_cons]
    by_cases hg : g.name = name
    · rw [List.find?_cons_of_pos _ (by simpa using hg)] at h
      rw [if_pos hg, List.find?_cons_of_pos _ (by simpa using hg)]
      injection h with h
      subst h
      rfl
    · rw [List.find?_cons_of_neg _ (by simpa using hg)] at h
      rw [if_neg hg, List.find?_cons_of_neg _ (by simpa using hg)]
      exact ih h

theorem envStep_empty (env : Env) (f : Flag)
    (h : envValue env f.name = "") : envStep env f = Except.ok Option.none := by
  simp [envStep, h]

theorem envStep_bool (env : Env) (f : Flag) (hb : f.flag_type = FType.fbool) :
    envStep env f =
      if ENABLED_SYMBOLS.contains (pyLower (envValue env f.name)) then
        Except.ok (some (PyVal.pyBool true))
      else if DISABLED_SYMBOLS.contains (pyLower (envValue env f.name)) then
        Except.ok (some (PyVal.pyBool false))
      else Except.ok Option.none := by
  by_cases hev : envValue env f.name = ""
  · simp only [envStep, hev, hb]
    rfl
  · simp [envStep, hev, hb]

/-! ## Claim theorems -/

/-- **C1**: for every declared flag, a set override slot makes `Get`
return the override verbatim, for any environment whatsoever (neither
the environment variable nor the default can influence the result);
and after a successful `Set(name, v)`, every subsequent `Get(name)`
returns `v` under any environment, in particular regardless of the
content of `JISHAKU_<name>`. -/
theorem C1_override_wins (st st' : ClassState) (name : String) (v : PyVal)
    (f : Flag) (fuel : Nat) (env : Env) :
    (lookupFlag st.flag_map name = some f → f.override ≠ PyVal.none →
      getFlag (fuel + 1) env st.flag_map name = some f.override) ∧
    (setattr st name v = Except.ok st' → lookupFlag st.flag_map name = some f →
      getFlag (fuel + 1) env st'.flag_map name = some v) := by
  constructor
  · intro hf ho
    unfold getFlag
    rw [hf]
    exact resolve_override fuel env st.flag_map f ho
  · intro hset hf
    simp only [setattr, hf] at hset
    cases hi : isinst v f.flag_type with
    | none => simp [hi] at hset
    | some b =>
      cases b
      · simp [hi] at hset
      · simp only [hi, Except.ok.injEq] at hset
        subst hset
        unfold getFlag
        rw [lookupFlag_setOverride_self st.flag_map name v f hf]
        exact resolve_override fuel env (setOverride st.flag_map name v)
          { f with override := v } (by simpa using isinst_true_ne_none hi)

/-- The `HIDE` flag definition as declared. -/
def hideFlag : Flag := ⟨"HIDE", FType.fbool, PyVal.none, PyVal.none⟩

/-- The `HIDE` flag definition after `Flags.HIDE = True`. -/
def hideOv : Flag := ⟨"HIDE", FType.fbool, PyVal.none, PyVal.pyBool true⟩

/-- The class state after `Flags.HIDE = True`. -/
def stHide : ClassState := ⟨setOverride jishakuFlags "HIDE" (PyVal.pyBool true), []⟩

/-- An environment with `JISHAKU_HIDE=0` (which would resolve `HIDE` to
`false` were there no override). -/
def envHide0 : Env :=
  fun k => if k = "JISHAKU_HIDE" then some "0" else Option.none

theorem C1_override_wins_witness :
    lookupFlag stHide.flag_map "HIDE" = some hideOv ∧
    getFlag 1 envHide0 stHide.flag_map "HIDE" = some hideOv.override ∧
    setattr jishakuInit "HIDE" (PyVal.pyBool true) = Except.ok stHide ∧
    lookupFlag jishakuInit.flag_map "HIDE" = some hideFlag ∧
    getFlag 1 envHide0 stHide.flag_map "HIDE" = some (PyVal.pyBool true) :=
  ⟨by rfl,
    (C1_override_wins stHide stHide "HIDE" (PyVal.pyBool true) hideOv 0
      envHide0).1 (by rfl) (by decide),
    by rfl, by rfl,
    (C1_override_wins jishakuInit stHide "HIDE" (PyVal.pyBool true) hideFlag 0
      envHide0).2 (by rfl) (by rfl)⟩

/-- **C3**: setting a declared flag to a value that is not an instance
of the flag's declared type fails with the `ValueError` whose message
names the flag, the value's actual type and the expected type, and the
state — in particular the override slot, hence any subsequent `Get` —
is left untouched (the error propagates before any assignment). -/
theorem C3_set_type_mismatch (st : ClassState) (name : String) (v : PyVal)
    (f : Flag) (hf : lookupFlag st.flag_map name = some f)
    (hty : isinst v f.flag_type = some false) :
    setattr st name v = Except.error (SetErr.valueError
      ("Attempted to set flag " ++ name ++ " to type " ++ v.typeName ++
        " (should be " ++ f.flag_type.typeName ++ ")")) ∧
    step st (Op.writeAttr name v) = st := by
  constructor
  · simp only [setattr, hf, hty]
  · simp only [step, setattr, hf, hty]

theorem C3_set_type_mismatch_witness :
    lookupFlag jishakuInit.flag_map "HIDE" = some hideFlag ∧
    isinst (PyVal.pyStr "x") hideFlag.flag_type = some false ∧
    setattr jishakuInit "HIDE" (PyVal.pyStr "x") = Except.error
      (SetErr.valueError
        "Attempted to set flag HIDE to type str (should be bool)") ∧
    step jishakuInit (Op.writeAttr "HIDE" (PyVal.pyStr "x")) = jishakuInit :=
  ⟨by rfl, by rfl,
    (C3_set_type_mismatch jishakuInit "HIDE" (PyVal.pyStr "x") hideFlag
      (by rfl) (by rfl)).1,
    (C3_set_type_mismatch jishakuInit "HIDE" (PyVal.pyStr "x") hideFlag
      (by rfl) (by rfl)).2⟩

/-- **C5**: a declared flag with its override unset, no usable
environment value (the environment step of `resolve` yields nothing)
and no declared default resolves to the zero value of its type:
`false` for a boolean flag, `""` for a string flag. -/
theorem C5_zero_value (fuel : Nat) (env : Env) (reg : Registry) (name : String)
    (f : Flag) (hf : lookupFlag reg name = some f)
    (ho : f.override = PyVal.none) (he : envStep env f = Except.ok Option.none)
    (hd : f.default = PyVal.none) :
    (f.flag_type = FType.fbool →
      getFlag (fuel + 1) env reg name = some (PyVal.pyBool false)) ∧
    (f.flag_type = FType.fstr →
      getFlag (fuel + 1) env reg name = some (PyVal.pyStr "")) := by
  have h := resolve_fallthrough fuel env reg f ho he
  constructor <;> intro ht <;>
    simp [getFlag, hf, h, defaultStep, hd, FType.zero, ht]

theorem C5_zero_value_witness :
    lookupFlag jishakuFlags "HIDE" = some hideFlag ∧
    hideFlag.override = PyVal.none ∧
    envStep emptyEnv hideFlag = Except.ok Option.none ∧
    hideFlag.default = PyVal.none ∧
    getFlag 1 emptyEnv jishakuFlags "HIDE" = some (PyVal.pyBool false) :=
  ⟨by rfl, by rfl, by rfl, by rfl,
    (C5_zero_value 0 emptyEnv jishakuFlags "HIDE" hideFlag (by rfl) (by rfl)
      (by rfl) (by rfl)).1 (by rfl)⟩

/-- **C10**: writing to a name that is not a declared flag performs no
type validation and cannot raise the type-mismatch error: it succeeds,
stores the value in the ordinary class attribute dict, and the flag
map — hence the override slot of every declared flag — is unchanged. -/
theorem C10_undeclared_attr (st : ClassState) (name : String) (v : PyVal)
    (h : lookupFlag st.flag_map name = Option.none) :
    setattr st name v =
      Except.ok { st with attrs := dictInsert st.attrs name v } ∧
    ({ st with attrs := dictInsert st.attrs name v } : ClassState).flag_map
      = st.flag_map := by
  constructor
  · simp only [setattr, h]
  · rfl

theorem C10_undeclared_attr_witness :
    lookupFlag jishakuInit.flag_map "WHATEVER" = Option.none ∧
    setattr jishakuInit "WHATEVER" (PyVal.pyStr "x") =
      Except.ok { jishakuInit with
        attrs := dictInsert jishakuInit.attrs "WHATEVER" (PyVal.pyStr "x") } :=
  ⟨by rfl,
    (C10_undeclared_attr jishakuInit "WHATEVER" (PyVal.pyStr "x") (by rfl)).1⟩

/-- **C2**: for a boolean-typed declared flag with no override, a
(trimmed) environment value that case-insensitively matches an enabled
word resolves to `true`, a disabled word to `false`; a value matching
neither word set raises nothing and resolution continues with the
default/zero-value step — the very computation run when the environment
variable is absent (last conjunct). -/
theorem C2_bool_env_words (fuel : Nat) (env : Env) (reg : Registry)
    (name : String) (f : Flag) (hf : lookupFlag reg name = some f)
    (hb : f.flag_type = FType.fbool) (ho : f.override = PyVal.none) :
    (ENABLED_SYMBOLS.contains (pyLower (envValue env name)) = true →
      getFlag (fuel + 1) env reg name = some (PyVal.pyBool true)) ∧
    (DISABLED_SYMBOLS.contains (pyLower (envValue env name)) = true →
      getFlag (fuel + 1) env reg name = some (PyVal.pyBool false)) ∧
    (ENABLED_SYMBOLS.contains (pyLower (envValue env name)) = false →
      DISABLED_SYMBOLS.contains (pyLower (envValue env name)) = false →
      getFlag (fuel + 1) env reg name = defaultStep fuel env reg f ∧
      ∀ env' : Env, envValue env' name = "" →
        getFlag (fuel + 1) env' reg name = defaultStep fuel env' reg f) := by
  have hn : f.name = name := lookupFlag_name hf
  have hes := envStep_bool env f hb
  rw [hn] at hes
  refine ⟨?_, ?_, ?_⟩
  · intro h1
    have h1' : pyLower (envValue env name) ∈ ENABLED_SYMBOLS := by simpa using h1
    simp only [getFlag, hf, resolve, ho, ne_eq, not_true_eq_false, if_false]
    rw [hes]
    simp [h1']
  · intro h2
    have h2' : pyLower (envValue env name) ∈ DISABLED_SYMBOLS := by simpa using h2
    by_cases h1 : pyLower (envValue env name) ∈ ENABLED_SYMBOLS
    · -- both word sets cannot match at once
      exfalso
      revert h1 h2'
      generalize pyLower (envValue env name) = w
      intro h1 h2'
      revert h2'
      fin_cases h1 <;> decide
    · simp only [getFlag, hf, resolve, ho, ne_eq, not_true_eq_false, if_false]
      rw [hes]
      simp [h1, h2']
  · intro h1 h2
    constructor
    · have he0 : envStep env f = Except.ok Option.none := by
        rw [hes, h1, h2]
        rfl
      simp only [getFlag, hf]
      exact resolve_fallthrough fuel env reg f ho he0
    · intro env' henv'
      have he0 : envStep env' f = Except.ok Option.none :=
        envStep_empty env' f (by rwa [hn])
      simp only [getFlag, hf]
      exact resolve_fallthrough fuel env' reg f ho he0

/-- Environment `JISHAKU_FORCE_PAGINATOR= baNAna ` (whitespace and
mixed case): unparsable as a boolean. -/
def envBanana : Env :=
  fun k => if k = "JISHAKU_FORCE_PAGINATOR" then some " baNAna " else Option.none

/-- Environment `JISHAKU_FORCE_PAGINATOR= On ` (whitespace, mixed
case): an enabled word. -/
def envOn : Env :=
  fun k => if k = "JISHAKU_FORCE_PAGINATOR" then some " On " else Option.none

/-- Environment `JISHAKU_FORCE_PAGINATOR=OFF`: a disabled word. -/
def envOff : Env :=
  fun k => if k = "JISHAKU_FORCE_PAGINATOR" then some "OFF" else Option.none

/-- The `FORCE_PAGINATOR` flag definition as declared. -/
def forcePagFlag : Flag := ⟨"FORCE_PAGINATOR", FType.fbool, PyVal.none, PyVal.none⟩

theorem C2_bool_env_words_witness :
    lookupFlag jishakuFlags "FORCE_PAGINATOR" = some forcePagFlag ∧
    forcePagFlag.flag_type = FType.fbool ∧
    forcePagFlag.override = PyVal.none ∧
    ENABLED_SYMBOLS.contains (pyLower (envValue envOn "FORCE_PAGINATOR")) = true ∧
    getFlag 1 envOn jishakuFlags "FORCE_PAGINATOR" = some (PyVal.pyBool true) ∧
    DISABLED_SYMBOLS.contains (pyLower (envValue envOff "FORCE_PAGINATOR")) = true ∧
    getFlag 1 envOff jishakuFlags "FORCE_PAGINATOR" = some (PyVal.pyBool false) ∧
    ENABLED_SYMBOLS.contains (pyLower (envValue envBanana "FORCE_PAGINATOR")) = false ∧
    DISABLED_SYMBOLS.contains (pyLower (envValue envBanana "FORCE_PAGINATOR")) = false ∧
    getFlag 1 envBanana jishakuFlags "FORCE_PAGINATOR" =
      defaultStep 0 envBanana jishakuFlags forcePagFlag :=
  ⟨by rfl, by rfl, by rfl, by decide,
    (C2_bool_env_words 0 envOn jishakuFlags "FORCE_PAGINATOR" forcePagFlag
      (by rfl) (by rfl) (by rfl)).1 (by decide),
    by decide,
    (C2_bool_env_words 0 envOff jishakuFlags "FORCE_PAGINATOR" forcePagFlag
      (by rfl) (by rfl) (by rfl)).2.1 (by decide),
    by decide, by decide,
    ((C2_bool_env_words 0 envBanana jishakuFlags "FORCE_PAGINATOR" forcePagFlag
      (by rfl) (by rfl) (by rfl)).2.2 (by decide) (by decide)).1⟩

/-- **C4**: with no override and no environment value for
`SCOPE_PREFIX`, `Get(SCOPE_PREFIX)` runs its computed default against
the registry: it returns `"_"` exactly when `Get(NO_UNDERSCORE)`
resolves to `false` and `""` when it resolves to `true`.  The registry
is the declared one with an arbitrary value `ov` in `NO_UNDERSCORE`'s
override slot, and the environment is arbitrary elsewhere, so the
hypothesis on `Get(NO_UNDERSCORE)` can be discharged with the
dependency driven by override (`ov` a boolean), by environment
(`ov = PyVal.none`, `JISHAKU_NO_UNDERSCORE` set) or by default
(`ov = PyVal.none`, variable unset), independently. -/
theorem C4_scope_computed_default (fuel : Nat) (env : Env) (ov : PyVal) (b : Bool)
    (henv : envValue env "SCOPE_PREFIX" = "")
    (hnu : getFlag fuel env (setOverride jishakuFlags "NO_UNDERSCORE" ov)
      "NO_UNDERSCORE" = some (PyVal.pyBool b)) :
    getFlag (fuel + 1) env (setOverride jishakuFlags "NO_UNDERSCORE" ov)
      "SCOPE_PREFIX" = some (PyVal.pyStr (if b then "" else "_")) := by
  have hsp : lookupFlag (setOverride jishakuFlags "NO_UNDERSCORE" ov)
      "SCOPE_PREFIX" =
      some ⟨"SCOPE_PREFIX", FType.fstr, PyVal.pyFn PyFn.scopePrefixFn,
        PyVal.none⟩ := rfl
  have hnuL : lookupFlag (setOverride jishakuFlags "NO_UNDERSCORE" ov)
      "NO_UNDERSCORE" = some ⟨"NO_UNDERSCORE", FType.fbool, PyVal.none, ov⟩ := rfl
  have hnu' : resolve fuel env (setOverride jishakuFlags "NO_UNDERSCORE" ov)
      ⟨"NO_UNDERSCORE", FType.fbool, PyVal.none, ov⟩ = some (PyVal.pyBool b) := by
    simpa only [getFlag, hnuL] using hnu
  have hes : envStep env
      (⟨"SCOPE_PREFIX", FType.fstr, PyVal.pyFn PyFn.scopePrefixFn,
        PyVal.none⟩ : Flag) = Except.ok Option.none :=
    envStep_empty env _ henv
  simp only [getFlag, hsp, resolve, hes]
  simp only [hnuL, hnu']
  cases b <;> rfl

/-- Environment `JISHAKU_NO_UNDERSCORE=1`, driving the dependency of
`SCOPE_PREFIX` through the environment. -/
def envNU1 : Env :=
  fun k => if k = "JISHAKU_NO_UNDERSCORE" then some "1" else Option.none

theorem C4_scope_computed_default_witness :
    envValue envNU1 "SCOPE_PREFIX" = "" ∧
    getFlag 1 envNU1 (setOverride jishakuFlags "NO_UNDERSCORE" PyVal.none)
      "NO_UNDERSCORE" = some (PyVal.pyBool true) ∧
    getFlag 2 envNU1 (setOverride jishakuFlags "NO_UNDERSCORE" PyVal.none)
      "SCOPE_PREFIX" = some (PyVal.pyStr "") ∧
    envValue emptyEnv "SCOPE_PREFIX" = "" ∧
    getFlag 1 emptyEnv
      (setOverride jishakuFlags "NO_UNDERSCORE" (PyVal.pyBool false))
      "NO_UNDERSCORE" = some (PyVal.pyBool false) ∧
    getFlag 2 emptyEnv
      (setOverride jishakuFlags "NO_UNDERSCORE" (PyVal.pyBool false))
      "SCOPE_PREFIX" = some (PyVal.pyStr "_") :=
  ⟨by rfl, by rfl,
    C4_scope_computed_default 1 envNU1 PyVal.none true (by rfl) (by rfl),
    by rfl, by rfl,
    C4_scope_computed_default 1 emptyEnv (PyVal.pyBool false) false
      (by rfl) (by rfl)⟩

/-- **C6**: a flag read performs no state change at all (the resolution
code contains no assignment), and after any single operation every flag
in the registry either kept its previous override or was the target of
a successful write, in which case its new override is the written value
and is never the unset marker — so the only transitions of the override
slot are unset→set and set→set-to-a-value, both through a successful
`Set`. -/
theorem C6_override_only_via_set (st : ClassState) (op : Op) (g' : Flag)
    (hg' : g' ∈ (step st op).flag_map) :
    (∀ n, step st (Op.readFlag n) = st) ∧
    ∃ g, g ∈ st.flag_map ∧ g.name = g'.name ∧ g.flag_type = g'.flag_type ∧
      g.default = g'.default ∧
      (g'.override = g.override ∨
        ∃ v, op = Op.writeAttr g'.name v ∧ (setattr st g'.name v).isOk = true ∧
          g'.override = v ∧ v ≠ PyVal.none) := by
  refine ⟨fun _ => rfl, ?_⟩
  cases op with
  | readFlag n =>
    exact ⟨g', hg', rfl, rfl, rfl, Or.inl rfl⟩
  | writeAttr n v =>
    cases hs : setattr st n v with
    | error e =>
      simp only [step, hs] at hg'
      exact ⟨g', hg', rfl, rfl, rfl, Or.inl rfl⟩
    | ok st' =>
      simp only [step, hs] at hg'
      cases hl : lookupFlag st.flag_map n with
      | none =>
        simp only [setattr, hl, Except.ok.injEq] at hs
        subst hs
        exact ⟨g', hg', rfl, rfl, rfl, Or.inl rfl⟩
      | some flag =>
        simp only [setattr, hl] at hs
        cases hi : isinst v flag.flag_type with
        | none => simp [hi] at hs
        | some c =>
          cases c
          · simp [hi] at hs
          · simp only [hi, Except.ok.injEq] at hs
            subst hs
            simp only [setOverride, List.mem_map] at hg'
            obtain ⟨g, hg, hgeq⟩ := hg'
            by_cases hgn : g.name = n
            · rw [if_pos hgn] at hgeq
              subst hgeq
              refine ⟨g, hg, rfl, rfl, rfl, Or.inr ⟨v, ?_, ?_, rfl,
                isinst_true_ne_none hi⟩⟩
              · simp [hgn]
              · simp only [hgn]
                simp [setattr, hl, hi, Except.isOk, Except.toBool]
            · rw [if_neg hgn] at hgeq
              subst hgeq
              exact ⟨g, hg, rfl, rfl, rfl, Or.inl rfl⟩

theorem C6_override_only_via_set_witness :
    hideOv ∈ (step jishakuInit (Op.writeAttr "HIDE" (PyVal.pyBool true))).flag_map ∧
    ((∀ n, step jishakuInit (Op.readFlag n) = jishakuInit) ∧
      ∃ g, g ∈ jishakuInit.flag_map ∧ g.name = hideOv.name ∧
        g.flag_type = hideOv.flag_type ∧ g.default = hideOv.default ∧
        (hideOv.override = g.override ∨
          ∃ v, Op.writeAttr "HIDE" (PyVal.pyBool true) =
              Op.writeAttr hideOv.name v ∧
            (setattr jishakuInit hideOv.name v).isOk = true ∧
            hideOv.override = v ∧ v ≠ PyVal.none)) :=
  ⟨by decide,
    C6_override_only_via_set jishakuInit
      (Op.writeAttr "HIDE" (PyVal.pyBool true)) hideOv (by decide)⟩

theorem dictInsertT_keys (d : List (String × FType)) (k : String) (v : FType) :
    (dictInsertT d k v).map Prod.fst =
      if d.any (fun p => p.1 = k) then d.map Prod.fst
      else d.map Prod.fst ++ [k] := by
  unfold dictInsertT
  by_cases h : d.any (fun p => p.1 = k)
  · simp only [h, if_true, List.map_map]
    apply List.map_congr_left
    intro p _
    by_cases hpk : p.1 = k
    · simp [Function.comp, hpk]
    · simp [Function.comp, hpk]
  · simp [h]

theorem buildAnnotDict_keys_nodup_aux (schema : List SchemaEntry)
    (d : List (String × FType)) (hd : (d.map Prod.fst).Nodup) :
    (((schema.foldl (fun d e => dictInsertT d e.name e.annot) d)).map
      Prod.fst).Nodup := by
  induction schema generalizing d with
  | nil => simpa using hd
  | cons e tl ih =>
    simp only [List.foldl_cons]
    apply ih
    rw [dictInsertT_keys]
    by_cases h : d.any (fun p => p.1 = e.name)
    · simpa [h] using hd
    · simp only [h, if_false, Bool.false_eq_true]
      have hk : e.name ∉ d.map Prod.fst := by
        intro hmem
        obtain ⟨p, hp, hpk⟩ := List.mem_map.mp hmem
        apply h
        rw [List.any_eq_true]
        exact ⟨p, hp, by simpa using hpk⟩
      simp [List.nodup_append, hd, hk]

theorem buildAnnotDict_keys_nodup (schema : List SchemaEntry) :
    ((buildAnnotDict schema).map Prod.fst).Nodup :=
  buildAnnotDict_keys_nodup_aux schema [] (by simp)

theorem buildFlagMap_names (annots : List (String × FType))
    (attrs : List (String × DefaultSpec)) :
    (buildFlagMap annots attrs).map Flag.name = annots.map Prod.fst := by
  unfold buildFlagMap
  rw [List.map_map]
  rfl

/-- C7 counterexample: the claim says a schema declaring `HIDE` twice
fails at declaration time, but declaration succeeds — the class body's
annotation dict keeps one entry per name (the later line overwrites the
earlier one), so `FlagMeta.__new__` never even sees a duplicate and
raises nothing. -/
theorem C7_counterexample :
    declare "Flags"
      [⟨"HIDE", FType.fbool, DefaultSpec.noSpec⟩,
        ⟨"HIDE", FType.fbool, DefaultSpec.noSpec⟩] =
      Except.ok [⟨"HIDE", FType.fbool, PyVal.none, PyVal.none⟩] := by rfl

/-- **C7 (amended)**: a duplicate flag name is never a declaration-time
error: the only error `declare` can produce is the stringified-first-
annotation guard, and whenever declaration succeeds the registry holds
exactly one definition per flag name (the class body's annotation dict
collapsed any repetition, last annotation winning). -/
theorem C7_no_duplicate_error (clsName : String) (schema : List SchemaEntry) :
    (∀ e, declare clsName schema = Except.error e →
      ∃ n s, (buildAnnotDict schema).head? = some (n, FType.fstrAnnot s)) ∧
    (∀ reg, declare clsName schema = Except.ok reg →
      (reg.map Flag.name).Nodup) := by
  constructor
  · intro e he
    unfold declare at he
    cases hh : (buildAnnotDict schema).head? with
    | none => simp [hh] at he
    | some p =>
      obtain ⟨n, t⟩ := p
      cases t with
      | fbool => simp [hh] at he
      | fstr => simp [hh] at he
      | fstrAnnot s => exact ⟨n, s, rfl⟩
  · intro reg hr
    unfold declare at hr
    cases hh : (buildAnnotDict schema).head? with
    | none =>
      simp only [hh, Except.ok.injEq] at hr
      subst hr
      rw [buildFlagMap_names]
      exact buildAnnotDict_keys_nodup schema
    | some p =>
      obtain ⟨n, t⟩ := p
      cases t with
      | fbool =>
        simp only [hh, Except.ok.injEq] at hr
        subst hr
        rw [buildFlagMap_names]
        exact buildAnnotDict_keys_nodup schema
      | fstr =>
        simp only [hh, Except.ok.injEq] at hr
        subst hr
        rw [buildFlagMap_names]
        exact buildAnnotDict_keys_nodup schema
      | fstrAnnot s => simp [hh] at hr

theorem C7_no_duplicate_error_witness :
    declare "Flags"
      [⟨"HIDE", FType.fbool, DefaultSpec.noSpec⟩,
        ⟨"HIDE", FType.fbool, DefaultSpec.noSpec⟩] =
      Except.ok [⟨"HIDE", FType.fbool, PyVal.none, PyVal.none⟩] ∧
    (([⟨"HIDE", FType.fbool, PyVal.none, PyVal.none⟩] : Registry).map
      Flag.name).Nodup :=
  ⟨by rfl,
    (C7_no_duplicate_error "Flags"
      [⟨"HIDE", FType.fbool, DefaultSpec.noSpec⟩,
        ⟨"HIDE", FType.fbool, DefaultSpec.noSpec⟩]).2
      [⟨"HIDE", FType.fbool, PyVal.none, PyVal.none⟩] (by rfl)⟩

/-- C8 counterexample: a schema whose *second* flag has a stringified
annotation declares without error (the guard inspects only the first
annotation), and the failure surfaces only at the first access of that
flag — directly contradicting "fails fast at declaration time, not at
first access". -/
theorem C8_counterexample :
    declare "Flags"
      [⟨"HIDE", FType.fbool, DefaultSpec.noSpec⟩,
        ⟨"LATER", FType.fstrAnnot "bool", DefaultSpec.noSpec⟩] =
      Except.ok
        [⟨"HIDE", FType.fbool, PyVal.none, PyVal.none⟩,
          ⟨"LATER", FType.fstrAnnot "bool", PyVal.none, PyVal.none⟩] ∧
    getFlag 1 emptyEnv
      [⟨"HIDE", FType.fbool, PyVal.none, PyVal.none⟩,
        ⟨"LATER", FType.fstrAnnot "bool", PyVal.none, PyVal.none⟩] "LATER" =
      Option.none :=
  ⟨rfl, rfl⟩

/-- **C8 (amended)**: the declaration-time guard fires exactly when the
*first* annotation of the schema is stringified (which covers the
`from __future__ import annotations` case, where every annotation is),
raising the `RuntimeError` before any flag is built; a stringified
annotation in a later position passes declaration (see the
counterexample) and only fails at first access. -/
theorem C8_stringified_first (clsName : String) (schema : List SchemaEntry)
    (n s : String)
    (h : (buildAnnotDict schema).head? = some (n, FType.fstrAnnot s)) :
    declare clsName schema = Except.error
      (clsName ++ " has stringified annotations; does the module " ++
        "contain from __future__ import annotations?") := by
  simp only [declare, h]

theorem C8_stringified_first_witness :
    (buildAnnotDict [⟨"HIDE", FType.fstrAnnot "bool",
        DefaultSpec.noSpec⟩]).head? = some ("HIDE", FType.fstrAnnot "bool") ∧
    declare "Flags" [⟨"HIDE", FType.fstrAnnot "bool", DefaultSpec.noSpec⟩] =
      Except.error
        ("Flags" ++ " has stringified annotations; does the module " ++
          "contain from __future__ import annotations?") :=
  ⟨by rfl,
    C8_stringified_first "Flags"
      [⟨"HIDE", FType.fstrAnnot "bool", DefaultSpec.noSpec⟩]
      "HIDE" "bool" (by rfl)⟩

/-- **C9**: the claim (and the spec) say every flag definition is built
with its override slot unset.  The `Flag` dataclass's fields are
`(name, flag_type, default, override)`, but `FlagMeta.__new__` calls
`Flag(flag_name, flag_type, default, handler)` — so for a schema entry
whose default-spec is a `(default, handler)` pair with a non-empty
handler, the handler lands in the override slot, and the very first
`Get`, before any `Set`, already returns from the override step: it
yields the handler function itself. -/
theorem C9_handler_lands_in_override :
    declare "Flags"
      [⟨"FOO", FType.fbool,
        DefaultSpec.pair PyVal.none (PyVal.pyFn PyFn.scopePrefixFn)⟩] =
      Except.ok
        [⟨"FOO", FType.fbool, PyVal.none, PyVal.pyFn PyFn.scopePrefixFn⟩] ∧
    getFlag 1 emptyEnv
      [⟨"FOO", FType.fbool, PyVal.none, PyVal.pyFn PyFn.scopePrefixFn⟩]
      "FOO" = some (PyVal.pyFn PyFn.scopePrefixFn) :=
  ⟨rfl, rfl⟩

end Jishaku
